import Mathlib

/-!
Verification development for the Octo profile batch-creation script
(`src/main.py`).  The script loads a delimited proxy file and an optional
JSON cookie map, then loops over a fixed number of profile slots, building
a JSON payload per slot (round-robin proxy via `itertools.cycle`, cookie
lookup by stringified zero-based index) and POSTing it to a remote API.
The API client raises `requests.HTTPError` on 4xx/5xx statuses and runs a
rate-limit check (`check_limits`) that can block.

The embedding below is a direct translation of the Python functions.
Python dictionaries are association lists keyed by `String` with
first-position / last-value update semantics; JSON values are the
inductive `JVal`; exceptions become `Except` / explicit error values; the
network is an environment function giving, for each iteration, either an
HTTP response or a transport-level failure.
-/

/-- JSON-like values, the shape of data parsed by `json.loads` and of the
request/response bodies. -/
inductive JVal where
  | null : JVal
  | bool : Bool → JVal
  | num : Int → JVal
  | str : String → JVal
  | arr : List JVal → JVal
  | obj : List (String × JVal) → JVal
deriving Repr

/-- Python truthiness (`if cookies:`) restricted to JSON values:
`None`, `False`, `0`, the empty string, the empty list and the empty
object are falsy; everything else is truthy. -/
def pyTruthy : JVal → Bool
  | .null => false
  | .bool b => b
  | .num n => n != 0
  | .str s => s ≠ ""
  | .arr l => !l.isEmpty
  | .obj l => !l.isEmpty

/-- Lookup in a Python dictionary modelled as an association list
(`d.get(k)` / `d[k]`): the value at the unique entry with key `k`. -/
def dictGet {α : Type} (d : List (String × α)) (k : String) : Option α :=
  (d.find? (fun kv => kv.1 == k)).map (fun kv => kv.2)

/-- Python dictionary update `d[k] = v`: an existing entry keeps its
position and gets the new value; a missing key is appended at the end,
matching insertion-order semantics. -/
def dictSet {α : Type} : List (String × α) → String → α → List (String × α)
  | [], k, v => [(k, v)]
  | (k0, v0) :: rest, k, v =>
      if k0 == k then (k, v) :: rest else (k0, v0) :: dictSet rest k v

/-- Build a Python dictionary from a sequence of key/value pairs (a dict
comprehension): first occurrence fixes the position, later occurrences
overwrite the value. -/
def dictOfList {α : Type} (l : List (String × α)) : List (String × α) :=
  l.foldl (fun d kv => dictSet d kv.1 kv.2) []

/-- Field access `v[k]` on a JSON object: `some` when `v` is an object
holding key `k`, `none` otherwise (Python would raise KeyError/TypeError). -/
def jget (v : JVal) (k : String) : Option JVal :=
  match v with
  | .obj kvs => dictGet kvs k
  | _ => none

/-- ASCII whitespace, the characters Python `str.strip()` and `int()`
discard at the ends of a string. -/
def isPyWs (c : Char) : Bool :=
  c = ' ' || c = '\t' || c = '\n' || c = '\r'

/-- Drop leading whitespace characters. -/
def stripL : List Char → List Char
  | [] => []
  | c :: rest => if isPyWs c then stripL rest else c :: rest

/-- Python `s.strip()`: the string without leading and trailing
whitespace. -/
def pyStrip (s : String) : String :=
  String.mk ((stripL (stripL s.data).reverse).reverse)

/-- Python `int(s)` on a string: optional surrounding whitespace, optional
sign, then at least one decimal digit; anything else raises `ValueError`,
modelled as `none`. -/
def pyInt (s : String) : Option Int :=
  let core : Int × List Char :=
    match (pyStrip s).data with
    | '-' :: rest => (-1, rest)
    | '+' :: rest => (1, rest)
    | l => (1, l)
  if core.2 ≠ [] ∧ core.2.all Char.isDigit then
    some (core.1 * (core.2.foldl (fun a c => a * 10 + (c.toNat - 48)) 0 : Nat))
  else
    none

/-- Python `str(x)` applied to a value that is already a string: returns it
unchanged and never raises. -/
def pyStr (s : String) : String := s

/-- A proxy record: one row of the proxy file as a dictionary from column
names to string values. -/
abbrev ProxyRec := List (String × String)

/-- One parsed CSV row as handed out by `csv.DictReader`: header keys
paired with this row's raw field values (missing fields read as `""`,
which is falsy like Python `None`). -/
abbrev CsvRow := List (String × String)

/-- Body of the row loop of `load_proxies` (src/main.py lines 63-70):
strip keys and values, drop entries with falsy key or value, then execute
`p["port"] = str(p["port"])` inside `try/except`.  The only exception
that statement can raise is `KeyError` when `"port"` is absent, since
`str` on a string always succeeds; the `except` branch is `sys.exit`,
modelled as `Except.error`. -/
def processRow (row : CsvRow) : Except String ProxyRec :=
  let p := dictOfList
    ((row.filter (fun kv => kv.2 ≠ "" && kv.1 ≠ "")).map
      (fun kv => (pyStrip kv.1, pyStrip kv.2)))
  match dictGet p "port" with
  | some v => .ok (dictSet p "port" (pyStr v))
  | none => .error "Invalid proxy row"

/-- `load_proxies` (src/main.py lines 51-75) over the already-split CSV
rows: process each row in file order, exiting fatally on the first bad
row, and exit fatally if no rows were loaded. -/
def load_proxies (rows : List CsvRow) : Except String (List ProxyRec) :=
  match rows.mapM processRow with
  | .error e => .error e
  | .ok proxies =>
    if proxies.isEmpty then .error "No proxies loaded" else .ok proxies

/-- A cookie map: the JSON object of `cookies.json`, keys are stringified
zero-based profile indices. -/
abbrev CookieMap := List (String × JVal)

/-- `load_cookies` (src/main.py lines 78-89): an absent file yields the
empty map; a file whose JSON top level is not an object is fatal;
otherwise the object is returned as-is. -/
def load_cookies (file : Option JVal) : Except String CookieMap :=
  match file with
  | none => .ok []
  | some (.obj kvs) => .ok kvs
  | some _ => .error "cookies.json must be a JSON object"

/-- ASCII lowercasing of one character. -/
def lowerChar (c : Char) : Char :=
  if 'A' ≤ c ∧ c ≤ 'Z' then Char.ofNat (c.toNat + 32) else c

/-- ASCII lowercasing of a string, for case-insensitive header names. -/
def lowerStr (s : String) : String :=
  String.mk (s.data.map lowerChar)

/-- Case-insensitive header lookup, matching `requests`' header mapping
(`response.headers.get(name, default)`). -/
def hget (hs : List (String × String)) (k : String) : Option String :=
  (hs.find? (fun kv => lowerStr kv.1 == lowerStr k)).map (fun kv => kv.2)

/-- The expression `int(response.headers.get(name, 0))` of `check_limits`
(src/main.py lines 111-112): an absent header gives the Python int `0`
(and `int(0)` is `0`); a present header value is parsed by `int`, which
raises `ValueError` on a non-numeric string, modelled as `Except.error`
carrying the offending value. -/
def getHeaderInt (hs : List (String × String)) (k : String) : Except String Int :=
  match hget hs k with
  | none => .ok 0
  | some s =>
    match pyInt s with
    | some n => .ok n
    | none => .error s

/-- `check_limits` (src/main.py lines 103-120): parse the two rate-limit
headers, then sleep 60 seconds when the per-minute remainder is below 10
and 3600 seconds when the per-hour remainder is below 10.  The result is
the ordered list of sleep durations performed; a `ValueError` from either
parse aborts before any sleep. -/
def check_limits (hs : List (String × String)) : Except String (List Nat) :=
  match getHeaderInt hs "x-ratelimit-remaining" with
  | .error e => .error e
  | .ok rpm =>
    match getHeaderInt hs "x-ratelimit-remaining-hour" with
    | .error e => .error e
    | .ok rph =>
      .ok ((if rpm < 10 then [60] else []) ++ (if rph < 10 then [3600] else []))

/-- An HTTP response as `requests.post` returns it: final status code,
response headers, the parsed JSON body, and the raw body text
(`response.text`). -/
structure HttpResponse where
  status : Nat
  headers : List (String × String)
  body : JVal
  text : String

/-- What one call to `requests.post` produces: either an HTTP response, or
a transport-level failure (timeout, connection error) raised as a
`requests.RequestException` that is not an `HTTPError`. -/
inductive ApiOutcome where
  | response (r : HttpResponse)
  | transportError (msg : String)

/-- The Python exceptions that can escape one loop iteration. -/
inductive PyExn where
  | httpError (status : Nat) (text : String)
  | valueError (msg : String)
  | keyError (key : String)
  | transport (msg : String)
deriving Repr, DecidableEq

/-- `api_post` (src/main.py lines 92-100), given the outcome of the
underlying `requests.post` call.  `raise_for_status` raises
`requests.HTTPError` exactly for status codes in 400-599; only then does
`check_limits` run, and only then is `resp.json()["data"]` extracted.
The first component is the list of rate-limit sleeps performed during the
call; the second is the returned `data` field or the escaping exception. -/
def api_post (o : ApiOutcome) : List Nat × Except PyExn JVal :=
  match o with
  | .transportError m => ([], .error (.transport m))
  | .response r =>
    if 400 ≤ r.status ∧ r.status < 600 then
      ([], .error (.httpError r.status r.text))
    else
      match check_limits r.headers with
      | .error m => ([], .error (.valueError m))
      | .ok pauses =>
        match jget r.body "data" with
        | some d => (pauses, .ok d)
        | none => (pauses, .error (.keyError "data"))

/-- The fixed default fingerprint `DEFAULT_FP` (src/main.py line 27). -/
def DEFAULT_FP : List (String × String) := [("os", "win"), ("screen", "1920x1080")]

/-- The JSON payload built for one profile slot: required title, proxy and
fingerprint, plus the optional cookies field (absent when omitted from the
outgoing JSON). -/
structure Payload where
  title : String
  proxy : Option ProxyRec
  fingerprint : List (String × String)
  cookies : Option JVal
deriving Repr

/-- The element drawn from `itertools.cycle(l)` after `n` previous draws:
walk `n` steps through copy after copy of `l` (none when `l` is empty, in
which case `next` would raise `StopIteration`). -/
def cycleGet {α : Type} (l : List α) (n : Nat) : Option α :=
  if l.length = 0 then none
  else if n < l.length then l.get? n
  else cycleGet l (n - l.length)
termination_by n
decreasing_by
  have : 0 < l.length := Nat.pos_of_ne_zero (by assumption)
  omega

/-- The payload built by iteration `idx` of the main loop (src/main.py
lines 132-143): title `BatchProfile_<idx>`, the next proxy from the cycle,
the constant fingerprint, and the cookies entry at key `str(idx - 1)` kept
only when truthy (`if cookies:`). -/
def mkPayload (proxies : List ProxyRec) (cmap : CookieMap) (idx : Nat) : Payload :=
  { title := "BatchProfile_" ++ toString idx
    proxy := cycleGet proxies (idx - 1)
    fingerprint := DEFAULT_FP
    cookies :=
      match dictGet cmap (toString (idx - 1)) with
      | some v => if pyTruthy v then some v else none
      | none => none }

/-- Console lines the loop prints per iteration: the success line with the
created profile UUID, or the two-line HTTP error report. -/
inductive LogLine where
  | success (idx : Nat) (uuid : JVal)
  | httpErr (idx : Nat) (status : Nat) (text : String)
deriving Repr

/-- The body of one loop iteration after the payload is sent (src/main.py
lines 145-150): on success print the UUID (`data["uuid"]`, an uncaught
`KeyError` if absent); an `HTTPError` is caught and reported; every other
exception escapes the `except` clause.  Result: log lines printed, sleeps
performed, and the exception escaping the iteration, if any. -/
def iterOutcome (env : Nat → ApiOutcome) (idx : Nat) :
    List LogLine × List Nat × Option PyExn :=
  match api_post (env idx) with
  | (pauses, .ok d) =>
    match jget d "uuid" with
    | some u => ([.success idx u], pauses, none)
    | none => ([], pauses, some (.keyError "uuid"))
  | (pauses, .error (.httpError s t)) => ([.httpErr idx s t], pauses, none)
  | (pauses, .error e) => ([], pauses, some e)

/-- Everything observable about one attempted iteration: its 1-based
index, the payload it sent, the lines it printed and the sleeps it
performed. -/
structure IterRec where
  idx : Nat
  payload : Payload
  log : List LogLine
  pauses : List Nat
deriving Repr

/-- The record of iteration `idx`: deterministic in the environment, the
loaded proxies and the cookie map. -/
def mkIterRec (env : Nat → ApiOutcome) (proxies : List ProxyRec)
    (cmap : CookieMap) (idx : Nat) : IterRec :=
  { idx
    payload := mkPayload proxies cmap idx
    log := (iterOutcome env idx).1
    pauses := (iterOutcome env idx).2.1 }

/-- The exception escaping iteration `idx`, if any (anything the
`except requests.HTTPError` clause does not catch). -/
def iterAbort (env : Nat → ApiOutcome) (idx : Nat) : Option PyExn :=
  (iterOutcome env idx).2.2

/-- The main loop `for idx in range(1, total + 1)` (src/main.py lines
132-150) starting at iteration `idx`: each attempted iteration appends its
record; an uncaught exception terminates the process after the iteration
that raised it.  Returns the attempted iterations in order and the fatal
exception, if any. -/
def runFrom (env : Nat → ApiOutcome) (proxies : List ProxyRec)
    (cmap : CookieMap) (total idx : Nat) : List IterRec × Option PyExn :=
  if total + 1 ≤ idx then ([], none)
  else
    match iterAbort env idx with
    | some e => ([mkIterRec env proxies cmap idx], some e)
    | none =>
      let rest := runFrom env proxies cmap total (idx + 1)
      (mkIterRec env proxies cmap idx :: rest.1, rest.2)
termination_by total + 1 - idx

/-- The whole loop, from iteration 1. -/
def runIters (env : Nat → ApiOutcome) (proxies : List ProxyRec)
    (cmap : CookieMap) (total : Nat) : List IterRec × Option PyExn :=
  runFrom env proxies cmap total 1

/-- `total = PROFILE_COUNT if PROFILE_COUNT > 0 else len(proxies)`
(src/main.py line 129); `PROFILE_COUNT` is 0 when the override is unset. -/
def pickTotal (profileCount : Int) (proxies : List ProxyRec) : Nat :=
  if profileCount > 0 then profileCount.toNat else proxies.length

/-- `main` (src/main.py lines 124-150) over pre-split proxy rows, a cookie
map and the network environment: load the proxies (fatal on error), pick
the total, run the loop. -/
def mainRun (rows : List CsvRow) (cmap : CookieMap) (profileCount : Int)
    (env : Nat → ApiOutcome) : Except String (List IterRec × Option PyExn) :=
  match load_proxies rows with
  | .error e => .error e
  | .ok proxies =>
    .ok (runFrom env proxies cmap (pickTotal profileCount proxies) 1)

theorem cycleGet_eq_mod {α : Type} (l : List α) (hl : l ≠ []) (n : Nat) :
    cycleGet l n = l.get? (n % l.length) := by
  induction n using Nat.strong_induction_on with
  | _ n ih =>
    have hlen : 0 < l.length := List.length_pos.mpr hl
    rw [cycleGet]
    by_cases h : n < l.length
    · rw [if_neg (by omega), if_pos h, Nat.mod_eq_of_lt h]
    · have hge : l.length ≤ n := Nat.le_of_not_lt h
      rw [if_neg (by omega), if_neg h, ih (n - l.length) (by omega),
        Nat.mod_eq_sub_mod hge]

theorem runFrom_stop (env : Nat → ApiOutcome) (p : List ProxyRec)
    (c : CookieMap) (total idx : Nat) (h : total < idx) :
    runFrom env p c total idx = ([], none) := by
  rw [runFrom, if_pos (by omega)]

theorem runFrom_abort (env : Nat → ApiOutcome) (p : List ProxyRec)
    (c : CookieMap) (total idx : Nat) (e : PyExn) (h : idx ≤ total)
    (ha : iterAbort env idx = some e) :
    runFrom env p c total idx = ([mkIterRec env p c idx], some e) := by
  rw [runFrom, if_neg (by omega), ha]

theorem runFrom_cont (env : Nat → ApiOutcome) (p : List ProxyRec)
    (c : CookieMap) (total idx : Nat) (h : idx ≤ total)
    (ha : iterAbort env idx = none) :
    runFrom env p c total idx =
      (mkIterRec env p c idx :: (runFrom env p c total (idx + 1)).1,
       (runFrom env p c total (idx + 1)).2) := by
  rw [runFrom, if_neg (by omega), ha]

theorem runFrom_get (env : Nat → ApiOutcome) (p : List ProxyRec)
    (c : CookieMap) (total : Nat) :
    ∀ j idx r, (runFrom env p c total idx).1.get? j = some r →
      r = mkIterRec env p c (idx + j) := by
  intro j
  induction j with
  | zero =>
    intro idx r h
    by_cases hle : idx ≤ total
    · cases ha : iterAbort env idx with
      | some e =>
        rw [runFrom_abort env p c total idx e hle ha] at h
        simp at h
        simp only [Nat.add_zero]
        exact h.symm
      | none =>
        rw [runFrom_cont env p c total idx hle ha] at h
        simp at h
        simp only [Nat.add_zero]
        exact h.symm
    · rw [runFrom_stop env p c total idx (by omega)] at h
      simp at h
  | succ j ih =>
    intro idx r h
    by_cases hle : idx ≤ total
    · cases ha : iterAbort env idx with
      | some e =>
        rw [runFrom_abort env p c total idx e hle ha] at h
        simp at h
      | none =>
        rw [runFrom_cont env p c total idx hle ha] at h
        simp only [List.get?_cons_succ] at h
        have h2 := ih (idx + 1) r h
        rw [h2]
        congr 1
        omega
    · rw [runFrom_stop env p c total idx (by omega)] at h
      simp at h

theorem runFrom_length_aux (env : Nat → ApiOutcome) (p : List ProxyRec)
    (c : CookieMap) (total : Nat) :
    ∀ m idx, total + 1 - idx = m → (runFrom env p c total idx).2 = none →
      (runFrom env p c total idx).1.length = m := by
  intro m
  induction m with
  | zero =>
    intro idx hm _
    rw [runFrom_stop env p c total idx (by omega)]
    rfl
  | succ m ih =>
    intro idx hm hnone
    have hle : idx ≤ total := by omega
    cases ha : iterAbort env idx with
    | some e =>
      rw [runFrom_abort env p c total idx e hle ha] at hnone
      simp at hnone
    | none =>
      rw [runFrom_cont env p c total idx hle ha] at hnone ⊢
      simp only [List.length_cons]
      rw [ih (idx + 1) (by omega) hnone]

theorem runFrom_length (env : Nat → ApiOutcome) (p : List ProxyRec)
    (c : CookieMap) (total idx : Nat)
    (h : (runFrom env p c total idx).2 = none) :
    (runFrom env p c total idx).1.length = total + 1 - idx :=
  runFrom_length_aux env p c total (total + 1 - idx) idx rfl h

theorem runFrom_get_attempted (env : Nat → ApiOutcome) (p : List ProxyRec)
    (c : CookieMap) (total : Nat) :
    ∀ j idx, idx + j ≤ total →
      (∀ k, idx ≤ k → k < idx + j → iterAbort env k = none) →
      (runFrom env p c total idx).1.get? j = some (mkIterRec env p c (idx + j)) := by
  intro j
  induction j with
  | zero =>
    intro idx hle _
    cases ha : iterAbort env idx with
    | some e =>
      rw [runFrom_abort env p c total idx e (by omega) ha]
      simp
    | none =>
      rw [runFrom_cont env p c total idx (by omega) ha]
      simp
  | succ j ih =>
    intro idx hle hpre
    have ha : iterAbort env idx = none := hpre idx (Nat.le_refl idx) (by omega)
    rw [runFrom_cont env p c total idx (by omega) ha]
    simp only [List.get?_cons_succ]
    have h2 := ih (idx + 1) (by omega) (fun k hk1 hk2 => hpre k (by omega) (by omega))
    rw [h2]
    congr 2
    omega

theorem runFrom_snd_none_aux (env : Nat → ApiOutcome) (p : List ProxyRec)
    (c : CookieMap) (total : Nat) (h : ∀ k, iterAbort env k = none) :
    ∀ m idx, total + 1 - idx = m → (runFrom env p c total idx).2 = none := by
  intro m
  induction m with
  | zero =>
    intro idx hm
    rw [runFrom_stop env p c total idx (by omega)]
  | succ m ih =>
    intro idx hm
    rw [runFrom_cont env p c total idx (by omega) (h idx)]
    exact ih (idx + 1) (by omega)

theorem runFrom_snd_none (env : Nat → ApiOutcome) (p : List ProxyRec)
    (c : CookieMap) (total idx : Nat) (h : ∀ k, iterAbort env k = none) :
    (runFrom env p c total idx).2 = none :=
  runFrom_snd_none_aux env p c total h (total + 1 - idx) idx rfl

theorem load_proxies_ok_ne_nil (rows : List CsvRow) (proxies : List ProxyRec)
    (h : load_proxies rows = Except.ok proxies) : proxies ≠ [] := by
  unfold load_proxies at h
  cases hm : rows.mapM processRow with
  | error e => rw [hm] at h; exact absurd h (by simp)
  | ok l =>
    rw [hm] at h
    by_cases he : l.isEmpty
    · simp [he] at h
    · simp [he] at h
      rw [← h]
      intro hc
      rw [hc] at he
      simp at he

/-- C1: the claim says a non-numeric port value makes `load_proxies`
terminate the process before any network call.  In the code the validating
statement is `p["port"] = str(p["port"])`, and `str` on a string never
fails, so the row with port `"abc"` (not numeric: `int` would reject it)
is accepted and the main loop issues — and here completes — a
profile-creation request carrying that proxy. -/
theorem load_proxies_accepts_nonnumeric_port :
    pyInt "abc" = none ∧
    load_proxies [[("host", "1.2.3.4"), ("port", "abc")]] =
      Except.ok [[("host", "1.2.3.4"), ("port", "abc")]] ∧
    ((runIters
        (fun _ => ApiOutcome.response
          { status := 200
            headers := [("x-ratelimit-remaining", "50"),
                        ("x-ratelimit-remaining-hour", "50")]
            body := JVal.obj [("data", JVal.obj [("uuid", JVal.str "u1")])]
            text := "" })
        [[("host", "1.2.3.4"), ("port", "abc")]] [] 1).1.map (fun r => r.log)) =
      [[LogLine.success 1 (JVal.str "u1")]] := by
  refine ⟨rfl, rfl, ?_⟩
  have ha : iterAbort
      (fun _ => ApiOutcome.response
        { status := 200
          headers := [("x-ratelimit-remaining", "50"),
                      ("x-ratelimit-remaining-hour", "50")]
          body := JVal.obj [("data", JVal.obj [("uuid", JVal.str "u1")])]
          text := "" }) 1 = none := rfl
  rw [runIters, runFrom_cont _ _ _ 1 1 (by omega) ha,
    runFrom_stop _ _ _ 1 2 (by omega)]
  rfl

/-- C2 counterexample: a transport-level failure (a timeout is a
`requests.RequestException` but not a `requests.HTTPError`) at iteration 1
is not caught by the `except requests.HTTPError` clause, so with 2
iterations configured only iteration 1 is attempted and the process dies
with the exception: a per-iteration failure does abort the remaining
iterations. -/
theorem loop_aborts_on_transport_error :
    (runIters (fun _ => ApiOutcome.transportError "timeout")
        [[("host", "h"), ("port", "1")]] [] 2).1.length = 1 ∧
    (runIters (fun _ => ApiOutcome.transportError "timeout")
        [[("host", "h"), ("port", "1")]] [] 2).2 =
      some (PyExn.transport "timeout") := by
  have ha : iterAbort (fun _ => ApiOutcome.transportError "timeout") 1 =
      some (PyExn.transport "timeout") := rfl
  rw [runIters, runFrom_abort _ _ _ 2 1 (PyExn.transport "timeout") (by omega) ha]
  exact ⟨rfl, rfl⟩

/-- C2 amended: a failure in iteration `idx` is handled inside that
iteration — the iteration is recorded and the loop proceeds to `idx + 1` —
exactly when it is a `requests.HTTPError`; any other escaping exception
terminates the loop with only the iterations up to and including `idx`
attempted. -/
theorem loop_continues_iff_http_error (env : Nat → ApiOutcome)
    (p : List ProxyRec) (c : CookieMap) (total idx : Nat)
    (_h1 : 1 ≤ idx) (h2 : idx ≤ total) :
    ((∃ s t, (api_post (env idx)).2 = Except.error (PyExn.httpError s t)) →
      runFrom env p c total idx =
        (mkIterRec env p c idx :: (runFrom env p c total (idx + 1)).1,
         (runFrom env p c total (idx + 1)).2)) ∧
    (∀ e, iterAbort env idx = some e →
      runFrom env p c total idx = ([mkIterRec env p c idx], some e)) := by
  constructor
  · rintro ⟨s, t, hst⟩
    have ha : iterAbort env idx = none := by
      unfold iterAbort iterOutcome
      rcases hp : api_post (env idx) with ⟨pauses, res⟩
      rw [hp] at hst
      simp at hst
      rw [hst]
    exact runFrom_cont env p c total idx h2 ha
  · intro e he
    exact runFrom_abort env p c total idx e h2 he

/-- C2 amended, witness: a 404 response at iteration 1 of 2 raises
`HTTPError`, which is caught, and the loop proceeds to iteration 2. -/
theorem loop_continues_iff_http_error_witness :
    runFrom
        (fun _ => ApiOutcome.response
          { status := 404, headers := [], body := JVal.null, text := "nf" })
        [[("port", "1")]] [] 2 1 =
      (mkIterRec
          (fun _ => ApiOutcome.response
            { status := 404, headers := [], body := JVal.null, text := "nf" })
          [[("port", "1")]] [] 1 ::
        (runFrom
          (fun _ => ApiOutcome.response
            { status := 404, headers := [], body := JVal.null, text := "nf" })
          [[("port", "1")]] [] 2 2).1,
       (runFrom
          (fun _ => ApiOutcome.response
            { status := 404, headers := [], body := JVal.null, text := "nf" })
          [[("port", "1")]] [] 2 2).2) :=
  (loop_continues_iff_http_error _ _ _ 2 1 (by omega) (by omega)).1
    ⟨404, "nf", rfl⟩

/-- C3 counterexample: a rate-limit header that is present but not numeric
is not replaced by 0 — `int` raises `ValueError`, so `check_limits` raises
rather than continuing; this holds for either header (line 111 for the
per-minute header, line 112 for the per-hour header). -/
theorem check_limits_raises_on_unparsable_header :
    check_limits
        [("x-ratelimit-remaining", "abc"), ("x-ratelimit-remaining-hour", "7")] =
      Except.error "abc" ∧
    check_limits
        [("x-ratelimit-remaining", "5"), ("x-ratelimit-remaining-hour", "abc")] =
      Except.error "abc" := ⟨rfl, rfl⟩

/-- C3 amended: `check_limits` defaults a header to 0 only when that
header is absent; a present header whose value does not parse as an
integer makes the call raise `ValueError` with that value — for the
per-minute header (line 111) as well as for the per-hour header (line
112, reached when the per-minute header parsed). -/
theorem check_limits_absent_zero_unparsable_raises (hs : List (String × String)) :
    (hget hs "x-ratelimit-remaining" = none →
      getHeaderInt hs "x-ratelimit-remaining" = Except.ok 0) ∧
    (hget hs "x-ratelimit-remaining-hour" = none →
      getHeaderInt hs "x-ratelimit-remaining-hour" = Except.ok 0) ∧
    (∀ s, hget hs "x-ratelimit-remaining" = some s → pyInt s = none →
      check_limits hs = Except.error s) ∧
    (∀ n s, getHeaderInt hs "x-ratelimit-remaining" = Except.ok n →
      hget hs "x-ratelimit-remaining-hour" = some s → pyInt s = none →
      check_limits hs = Except.error s) := by
  refine ⟨fun h => ?_, fun h => ?_, fun s hs1 hs2 => ?_, fun n s hok hh1 hh2 => ?_⟩
  · unfold getHeaderInt; rw [h]
  · unfold getHeaderInt; rw [h]
  · unfold check_limits
    have hge : getHeaderInt hs "x-ratelimit-remaining" = Except.error s := by
      unfold getHeaderInt
      rw [hs1]
      simp [hs2]
    rw [hge]
  · have hge : getHeaderInt hs "x-ratelimit-remaining-hour" = Except.error s := by
      unfold getHeaderInt
      rw [hh1]
      simp [hh2]
    unfold check_limits
    rw [hok]
    simp [hge]

/-- C3 amended, witness: an absent per-minute header parses to 0; a
present non-numeric per-minute header value makes check_limits fail; and
a parsable per-minute header followed by a non-numeric per-hour header
value also makes check_limits fail. -/
theorem check_limits_absent_zero_unparsable_raises_witness :
    getHeaderInt [("x-ratelimit-remaining-hour", "7")] "x-ratelimit-remaining" =
      Except.ok 0 ∧
    check_limits [("x-ratelimit-remaining", "zz")] = Except.error "zz" ∧
    check_limits [("x-ratelimit-remaining", "5"),
                  ("x-ratelimit-remaining-hour", "abc")] = Except.error "abc" :=
  ⟨(check_limits_absent_zero_unparsable_raises _).1 rfl,
   (check_limits_absent_zero_unparsable_raises _).2.2.1 "zz" rfl rfl,
   (check_limits_absent_zero_unparsable_raises _).2.2.2 5 "abc" rfl rfl rfl⟩

/-- C4: with total `T` and a nonempty proxy list, when the run finishes
without an uncaught exception the proxy attached to the request of 1-based
iteration `i` (1 ≤ i ≤ T) is the list element at position `(i-1) % P`:
the `itertools.cycle` selection coincides with modular indexing. -/
theorem proxy_selection_eq_mod (env : Nat → ApiOutcome) (p : List ProxyRec)
    (c : CookieMap) (T i : Nat) (hp : p ≠ [])
    (hno : (runIters env p c T).2 = none)
    (h1 : 1 ≤ i) (h2 : i ≤ T) :
    ((runIters env p c T).1.get? (i - 1)).map (fun r => r.idx) = some i ∧
    ((runIters env p c T).1.get? (i - 1)).map (fun r => r.payload.proxy) =
      some (p.get? ((i - 1) % p.length)) := by
  have hlen : (runIters env p c T).1.length = T := by
    have h := runFrom_length env p c T 1 hno
    simpa using h
  have hlt : i - 1 < (runIters env p c T).1.length := by omega
  cases hr : (runIters env p c T).1.get? (i - 1) with
  | none =>
    rw [List.get?_eq_none] at hr
    omega
  | some r =>
    have hr2 := runFrom_get env p c T (i - 1) 1 r hr
    have hidx : 1 + (i - 1) = i := by omega
    rw [hidx] at hr2
    subst hr2
    refine ⟨rfl, ?_⟩
    simp only [mkIterRec, mkPayload, Option.map_some]
    rw [cycleGet_eq_mod p hp]
    rfl

/-- C4 witness: 5 profiles over 2 proxies, all responses successful;
request 4 carries the proxy at position (4-1) % 2 = 1. -/
theorem proxy_selection_eq_mod_witness :
    ((runIters
        (fun _ => ApiOutcome.response
          { status := 200
            headers := [("x-ratelimit-remaining", "50"),
                        ("x-ratelimit-remaining-hour", "50")]
            body := JVal.obj [("data", JVal.obj [("uuid", JVal.str "u1")])]
            text := "" })
        [[("host", "a"), ("port", "1")], [("host", "b"), ("port", "2")]]
        [] 5).1.get? 3).map (fun r => r.payload.proxy) =
      some (some [("host", "b"), ("port", "2")]) := by
  have h := proxy_selection_eq_mod
    (fun _ => ApiOutcome.response
      { status := 200
        headers := [("x-ratelimit-remaining", "50"),
                    ("x-ratelimit-remaining-hour", "50")]
        body := JVal.obj [("data", JVal.obj [("uuid", JVal.str "u1")])]
        text := "" })
    [[("host", "a"), ("port", "1")], [("host", "b"), ("port", "2")]]
    [] 5 4 (by simp)
    (runFrom_snd_none _ _ _ 5 1 (fun k => rfl))
    (by omega) (by omega)
  exact h.2

/-- C5: with no profile-count override (PROFILE_COUNT = 0) and a proxy
file loading P records, a run of main that finishes without an uncaught
exception attempts exactly P iterations, and the request of 0-based slot
j has 1-based index j+1 and carries the j-th proxy of the file, in file
order. -/
theorem default_count_one_request_per_proxy (rows : List CsvRow)
    (cmap : CookieMap) (env : Nat → ApiOutcome) (proxies : List ProxyRec)
    (trace : List IterRec)
    (hload : load_proxies rows = Except.ok proxies)
    (hrun : mainRun rows cmap 0 env = Except.ok (trace, none)) :
    trace.length = proxies.length ∧
    ∀ j, j < proxies.length →
      (trace.get? j).map (fun r => r.idx) = some (j + 1) ∧
      (trace.get? j).map (fun r => r.payload.proxy) = some (proxies.get? j) := by
  have hp : proxies ≠ [] := load_proxies_ok_ne_nil rows proxies hload
  have hrun2 : runFrom env proxies cmap (pickTotal 0 proxies) 1 = (trace, none) := by
    unfold mainRun at hrun
    rw [hload] at hrun
    exact Except.ok.inj hrun
  have htot : pickTotal 0 proxies = proxies.length := by
    unfold pickTotal
    simp
  rw [htot] at hrun2
  have hfst : (runFrom env proxies cmap proxies.length 1).1 = trace := by rw [hrun2]
  have hsnd : (runFrom env proxies cmap proxies.length 1).2 = none := by rw [hrun2]
  have hlen : trace.length = proxies.length := by
    rw [← hfst, runFrom_length env proxies cmap proxies.length 1 hsnd]
    omega
  refine ⟨hlen, fun j hj => ?_⟩
  cases hr : trace.get? j with
  | none =>
    rw [List.get?_eq_none] at hr
    omega
  | some r =>
    rw [← hfst] at hr
    have hr2 := runFrom_get env proxies cmap proxies.length j 1 r hr
    subst hr2
    have hidx : 1 + j - 1 = j := by omega
    constructor
    · simp only [mkIterRec, Option.map_some]
      rw [Nat.add_comm]
      rfl
    · simp only [mkIterRec, mkPayload, Option.map_some]
      rw [hidx, cycleGet_eq_mod proxies hp, Nat.mod_eq_of_lt hj]
      rfl

/-- C5 witness: a two-row proxy file and no override: exactly 2 requests,
the second carrying the second proxy of the file. -/
theorem default_count_one_request_per_proxy_witness :
    (runIters
        (fun _ => ApiOutcome.response
          { status := 200
            headers := [("x-ratelimit-remaining", "50"),
                        ("x-ratelimit-remaining-hour", "50")]
            body := JVal.obj [("data", JVal.obj [("uuid", JVal.str "u1")])]
            text := "" })
        [[("host", "a"), ("port", "1")], [("host", "b"), ("port", "2")]]
        [] 2).1.length = 2 ∧
    ((runIters
        (fun _ => ApiOutcome.response
          { status := 200
            headers := [("x-ratelimit-remaining", "50"),
                        ("x-ratelimit-remaining-hour", "50")]
            body := JVal.obj [("data", JVal.obj [("uuid", JVal.str "u1")])]
            text := "" })
        [[("host", "a"), ("port", "1")], [("host", "b"), ("port", "2")]]
        [] 2).1.get? 1).map (fun r => r.payload.proxy) =
      some (some [("host", "b"), ("port", "2")]) := by
  have hsnd : (runFrom
      (fun _ => ApiOutcome.response
        { status := 200
          headers := [("x-ratelimit-remaining", "50"),
                      ("x-ratelimit-remaining-hour", "50")]
          body := JVal.obj [("data", JVal.obj [("uuid", JVal.str "u1")])]
          text := "" })
      [[("host", "a"), ("port", "1")], [("host", "b"), ("port", "2")]]
      [] 2 1).2 = none := runFrom_snd_none _ _ _ 2 1 (fun k => rfl)
  have hrun : mainRun
      [[("host", "a"), ("port", "1")], [("host", "b"), ("port", "2")]] [] 0
      (fun _ => ApiOutcome.response
        { status := 200
          headers := [("x-ratelimit-remaining", "50"),
                      ("x-ratelimit-remaining-hour", "50")]
          body := JVal.obj [("data", JVal.obj [("uuid", JVal.str "u1")])]
          text := "" }) =
      Except.ok ((runFrom
        (fun _ => ApiOutcome.response
          { status := 200
            headers := [("x-ratelimit-remaining", "50"),
                        ("x-ratelimit-remaining-hour", "50")]
            body := JVal.obj [("data", JVal.obj [("uuid", JVal.str "u1")])]
            text := "" })
        [[("host", "a"), ("port", "1")], [("host", "b"), ("port", "2")]]
        [] 2 1).1, none) := by
    rw [← hsnd, Prod.mk.eta]
    rfl
  have h := default_count_one_request_per_proxy
    [[("host", "a"), ("port", "1")], [("host", "b"), ("port", "2")]] []
    (fun _ => ApiOutcome.response
      { status := 200
        headers := [("x-ratelimit-remaining", "50"),
                    ("x-ratelimit-remaining-hour", "50")]
        body := JVal.obj [("data", JVal.obj [("uuid", JVal.str "u1")])]
        text := "" })
    [[("host", "a"), ("port", "1")], [("host", "b"), ("port", "2")]]
    _ rfl hrun
  exact ⟨h.1, (h.2 1 (by decide)).2⟩

/-- C6 counterexample: with cookie map {"0": []} the key "0" (= str(1-1))
is present, yet the payload of iteration 1 omits the cookies field,
because `if cookies:` rejects the falsy empty list; the stated
if-and-only-if fails in the only-if direction. -/
theorem cookies_field_omitted_for_empty_entry :
    (dictGet [("0", JVal.arr [])] "0").isSome = true ∧
    ((runIters
        (fun _ => ApiOutcome.response
          { status := 200
            headers := [("x-ratelimit-remaining", "50"),
                        ("x-ratelimit-remaining-hour", "50")]
            body := JVal.obj [("data", JVal.obj [("uuid", JVal.str "u1")])]
            text := "" })
        [[("port", "1")]] [("0", JVal.arr [])] 1).1.map
          (fun r => r.payload.cookies)) = [none] := by
  refine ⟨rfl, ?_⟩
  have ha : iterAbort
      (fun _ => ApiOutcome.response
        { status := 200
          headers := [("x-ratelimit-remaining", "50"),
                      ("x-ratelimit-remaining-hour", "50")]
          body := JVal.obj [("data", JVal.obj [("uuid", JVal.str "u1")])]
          text := "" }) 1 = none := rfl
  rw [runIters, runFrom_cont _ _ _ 1 1 (by omega) ha,
    runFrom_stop _ _ _ 1 2 (by omega)]
  rfl

/-- C6 amended: the payload of iteration `idx` contains a cookies field
iff the cookie map holds key str(idx-1) with a truthy (non-empty,
non-null) value, and a present cookies field is exactly that entry, so an
entry at key "k" reaches only the request with 1-based index k+1. -/
theorem cookies_field_iff_truthy_entry (p : List ProxyRec) (c : CookieMap)
    (idx : Nat) :
    ((mkPayload p c idx).cookies.isSome = true ↔
      ∃ v, dictGet c (toString (idx - 1)) = some v ∧ pyTruthy v = true) ∧
    (∀ v, (mkPayload p c idx).cookies = some v →
      dictGet c (toString (idx - 1)) = some v ∧ pyTruthy v = true) := by
  simp only [mkPayload]
  cases hv : dictGet c (toString (idx - 1)) with
  | none =>
    refine ⟨?_, ?_⟩
    · simp
    · intro v hv2
      simp at hv2
  | some v =>
    by_cases ht : pyTruthy v = true
    · refine ⟨?_, ?_⟩
      · simp [ht]
      · intro w hw
        simp [ht] at hw
        rw [← hw]
        exact ⟨rfl, ht⟩
    · refine ⟨?_, ?_⟩
      · simp [ht]
      · intro w hw
        simp [ht] at hw

/-- C6 amended, witness: a nonempty entry at key "0" is attached to the
request of iteration 1. -/
theorem cookies_field_iff_truthy_entry_witness :
    (mkPayload [[("port", "1")]]
      [("0", JVal.arr [JVal.obj [("name", JVal.str "a")]])] 1).cookies.isSome =
      true :=
  (cookies_field_iff_truthy_entry [[("port", "1")]]
    [("0", JVal.arr [JVal.obj [("name", JVal.str "a")]])] 1).1.mpr
    ⟨JVal.arr [JVal.obj [("name", JVal.str "a")]], rfl, rfl⟩

/-- C7: whenever both rate-limit headers parse, check_limits performs a
60-second pause exactly when the per-minute remainder is below 10 and a
3600-second pause exactly when the per-hour remainder is below 10, the
two checks independent and the pauses sequential in that order. -/
theorem check_limits_pause_policy (hs : List (String × String)) (rpm rph : Int)
    (h1 : getHeaderInt hs "x-ratelimit-remaining" = Except.ok rpm)
    (h2 : getHeaderInt hs "x-ratelimit-remaining-hour" = Except.ok rph) :
    check_limits hs =
      Except.ok ((if rpm < 10 then [60] else []) ++
                 (if rph < 10 then [3600] else [])) := by
  unfold check_limits
  rw [h1]
  simp only []
  rw [h2]

/-- C7 witness: both headers low (5 per minute, 3 per hour) produce both
pauses in one call, in order: 60 seconds then 3600 seconds. -/
theorem check_limits_pause_policy_witness :
    check_limits
        [("x-ratelimit-remaining", "5"), ("x-ratelimit-remaining-hour", "3")] =
      Except.ok [60, 3600] := by
  have h := check_limits_pause_policy
    [("x-ratelimit-remaining", "5"), ("x-ratelimit-remaining-hour", "3")]
    5 3 rfl rfl
  simpa using h

/-- C9: a cookie map entry that is present but falsy (null, empty array,
etc.) at key str(idx-1) leaves the payload without a cookies field,
exactly as when the key is absent (the empty cookie map). -/
theorem falsy_cookie_entry_omitted (p : List ProxyRec) (c : CookieMap)
    (idx : Nat) (v : JVal)
    (hv : dictGet c (toString (idx - 1)) = some v)
    (hf : pyTruthy v = false) :
    (mkPayload p c idx).cookies = none ∧
    (mkPayload p c idx).cookies = (mkPayload p [] idx).cookies := by
  have hc : (mkPayload p c idx).cookies = none := by
    simp only [mkPayload]
    rw [hv]
    simp [hf]
  exact ⟨hc, by rw [hc]; rfl⟩

/-- C9 witness: the entry "0" maps to JSON null; iteration 1 sends no
cookies field. -/
theorem falsy_cookie_entry_omitted_witness :
    (mkPayload [[("port", "1")]] [("0", JVal.null)] 1).cookies = none :=
  (falsy_cookie_entry_omitted [[("port", "1")]] [("0", JVal.null)] 1
    JVal.null rfl rfl).1

/-- C8 counterexample: iteration 1 of 2 receives a 301 response — non-2xx
— whose body has no data field: `raise_for_status` does not raise (it
raises only for 4xx/5xx), so no error line is printed, and the uncaught
KeyError on `resp.json()["data"]` kills the loop: iteration 2 is never
attempted. -/
theorem non2xx_redirect_not_reported :
    ((runIters
        (fun _ => ApiOutcome.response
          { status := 301
            headers := [("x-ratelimit-remaining", "50"),
                        ("x-ratelimit-remaining-hour", "50")]
            body := JVal.null
            text := "moved" })
        [[("port", "1")]] [] 2).1.map (fun r => r.log)) = [[]] ∧
    (runIters
        (fun _ => ApiOutcome.response
          { status := 301
            headers := [("x-ratelimit-remaining", "50"),
                        ("x-ratelimit-remaining-hour", "50")]
            body := JVal.null
            text := "moved" })
        [[("port", "1")]] [] 2).2 = some (PyExn.keyError "data") := by
  have ha : iterAbort
      (fun _ => ApiOutcome.response
        { status := 301
          headers := [("x-ratelimit-remaining", "50"),
                      ("x-ratelimit-remaining-hour", "50")]
          body := JVal.null
          text := "moved" }) 1 = some (PyExn.keyError "data") := rfl
  rw [runIters, runFrom_abort _ _ _ 2 1 (PyExn.keyError "data") (by omega) ha]
  exact ⟨rfl, rfl⟩

/-- C8 amended: when iteration `idx` (1 ≤ idx < total) receives a response
with a 4xx/5xx status and no earlier iteration aborted, the error line
carrying the status and server body is logged for `idx`, and iteration
`idx + 1` is attempted exactly as if `idx` had succeeded: its record
follows in the trace with the next cycled proxy (position idx % P) and
the truthiness-filtered cookie entry at key str(idx). -/
theorem http_error_continues_cycled (env : Nat → ApiOutcome)
    (p : List ProxyRec) (c : CookieMap) (total idx : Nat) (r : HttpResponse)
    (hp : p ≠ [])
    (henv : env idx = ApiOutcome.response r)
    (hs4 : 400 ≤ r.status) (hs6 : r.status < 600)
    (h1 : 1 ≤ idx) (h2 : idx < total)
    (hpre : ∀ k, 1 ≤ k → k < idx → iterAbort env k = none) :
    ((runIters env p c total).1.get? (idx - 1)).map (fun q => q.log) =
      some [LogLine.httpErr idx r.status r.text] ∧
    ((runIters env p c total).1.get? idx).map (fun q => q.idx) =
      some (idx + 1) ∧
    ((runIters env p c total).1.get? idx).map (fun q => q.payload.proxy) =
      some (p.get? (idx % p.length)) ∧
    ((runIters env p c total).1.get? idx).map (fun q => q.payload.cookies) =
      some (match dictGet c (toString idx) with
            | some v => if pyTruthy v then some v else none
            | none => none) := by
  have hapi : api_post (env idx) =
      ([], Except.error (PyExn.httpError r.status r.text)) := by
    rw [henv]
    simp only [api_post]
    rw [if_pos ⟨hs4, hs6⟩]
  have hout : iterOutcome env idx =
      ([LogLine.httpErr idx r.status r.text], [], none) := by
    unfold iterOutcome
    rw [hapi]
  have hab : iterAbort env idx = none := by
    unfold iterAbort
    rw [hout]
  have hidx1 : 1 + (idx - 1) = idx := by omega
  have hget1 : (runFrom env p c total 1).1.get? (idx - 1) =
      some (mkIterRec env p c idx) := by
    have h := runFrom_get_attempted env p c total (idx - 1) 1 (by omega)
      (fun k hk1 hk2 => hpre k hk1 (by omega))
    rw [hidx1] at h
    exact h
  have hget2 : (runFrom env p c total 1).1.get? idx =
      some (mkIterRec env p c (1 + idx)) :=
    runFrom_get_attempted env p c total idx 1 (by omega)
      (fun k hk1 hk2 => by
        by_cases hk : k = idx
        · rw [hk]; exact hab
        · exact hpre k hk1 (by omega))
  have hidx2 : 1 + idx - 1 = idx := by omega
  unfold runIters
  rw [hget1, hget2]
  refine ⟨?_, ?_, ?_, ?_⟩
  · simp only [mkIterRec, Option.map_some]
    rw [hout]
    rfl
  · simp only [mkIterRec, Option.map_some]
    rw [Nat.add_comm]
    rfl
  · simp only [mkIterRec, mkPayload, Option.map_some]
    rw [hidx2, cycleGet_eq_mod p hp]
    rfl
  · simp only [mkIterRec, mkPayload, Option.map_some]
    rw [hidx2]
    rfl

/-- C8 amended, witness: every response is a 404; iteration 1 logs the
error and iteration 2 runs with the single proxy re-cycled (1 % 1 = 0)
and no cookie entry. -/
theorem http_error_continues_cycled_witness :
    ((runIters
        (fun _ => ApiOutcome.response
          { status := 404, headers := [], body := JVal.null, text := "err" })
        [[("port", "1")]] [] 2).1.get? 0).map (fun q => q.log) =
      some [LogLine.httpErr 1 404 "err"] ∧
    ((runIters
        (fun _ => ApiOutcome.response
          { status := 404, headers := [], body := JVal.null, text := "err" })
        [[("port", "1")]] [] 2).1.get? 1).map (fun q => q.idx) = some 2 ∧
    ((runIters
        (fun _ => ApiOutcome.response
          { status := 404, headers := [], body := JVal.null, text := "err" })
        [[("port", "1")]] [] 2).1.get? 1).map (fun q => q.payload.proxy) =
      some (some [("port", "1")]) := by
  have h := http_error_continues_cycled
    (fun _ => ApiOutcome.response
      { status := 404, headers := [], body := JVal.null, text := "err" })
    [[("port", "1")]] [] 2 1
    { status := 404, headers := [], body := JVal.null, text := "err" }
    (by simp) rfl (by decide) (by decide) (by omega) (by omega)
    (fun k hk1 hk2 => by omega)
  exact ⟨h.1, h.2.1, h.2.2.1⟩

/-- C10 counterexample: a 301 response is non-2xx, yet api_post does not
raise — `raise_for_status` raises only for 4xx/5xx — so check_limits is
reached: the low per-minute header triggers the 60-second pause and the
data field is returned as on success. -/
theorem non2xx_response_reaches_rate_check :
    api_post (ApiOutcome.response
      { status := 301
        headers := [("x-ratelimit-remaining", "5"),
                    ("x-ratelimit-remaining-hour", "50")]
        body := JVal.obj [("data", JVal.str "d")]
        text := "moved" }) = ([60], Except.ok (JVal.str "d")) := rfl

/-- C10 amended: api_post raises HTTPError before the rate-limit check
exactly for 4xx/5xx statuses — such a call performs no pause and
propagates the error — while for any status below 400 the call proceeds
into check_limits and performs exactly the pauses it prescribes. -/
theorem http_error_skips_rate_check (r : HttpResponse) :
    (400 ≤ r.status → r.status < 600 →
      api_post (ApiOutcome.response r) =
        ([], Except.error (PyExn.httpError r.status r.text))) ∧
    (r.status < 400 → ∀ ps, check_limits r.headers = Except.ok ps →
      (api_post (ApiOutcome.response r)).1 = ps) := by
  constructor
  · intro h4 h6
    simp only [api_post]
    rw [if_pos ⟨h4, h6⟩]
  · intro hlt ps hps
    simp only [api_post]
    rw [if_neg (by omega : ¬(400 ≤ r.status ∧ r.status < 600))]
    rw [hps]
    cases hj : jget r.body "data" with
    | none => simp [hj]
    | some d => simp [hj]

/-- C10 amended, witness: a 404 with a low per-minute header pauses not at
all and raises; a 200 with the same headers performs the 60-second
pause. -/
theorem http_error_skips_rate_check_witness :
    api_post (ApiOutcome.response
      { status := 404
        headers := [("x-ratelimit-remaining", "5"),
                    ("x-ratelimit-remaining-hour", "50")]
        body := JVal.null
        text := "not found" }) =
      ([], Except.error (PyExn.httpError 404 "not found")) ∧
    (api_post (ApiOutcome.response
      { status := 200
        headers := [("x-ratelimit-remaining", "5"),
                    ("x-ratelimit-remaining-hour", "50")]
        body := JVal.obj [("data", JVal.null)]
        text := "" })).1 = [60] :=
  ⟨(http_error_skips_rate_check _).1 (by decide) (by decide),
   (http_error_skips_rate_check _).2 (by decide) [60] rfl⟩
